import Mathlib

/-!
Verification of the winged-edge mesh kernel (`src/winged/mesh.cpp`,
`lib/src/scene.cpp`) of the dilay repository.

`WingedMesh::Impl` composes a render buffer (`Mesh`), a topology store
(`std::list` of vertices and edges), a spatial index (`Octree`, the
authoritative face store) and an index-slot allocator
(`std::set<unsigned int> freeFirstIndexNumbers`).  The render buffer,
the octree and `WingedFace::writeIndices` are repository code that is
not contained in `src/`; their definitions below are modelled from the
spec and marked as such.  All `WingedMesh.*` operations are translated
directly from `WingedMesh::Impl` in `src/src/winged/mesh.cpp`.

Vertex positions are modelled over `ℚ` (the claims under verification
never compare positions, so the exact scalar type is irrelevant).
-/

abbrev Vec3 : Type := Rat × Rat × Rat

abbrev Triangle : Type := Vec3 × Vec3 × Vec3

/-- Modelled from the spec (§4.1 Render Buffer): flat arrays of vertex
positions and triangle indices with append / overwrite / resize /
pop-from-tail operations.  The normal array is omitted: it is written
only by `writeNormals`, which no claim under verification observes. -/
structure Mesh where
  vertexData : List Vec3 := []
  indexData  : List Nat  := []
deriving Repr, DecidableEq

namespace Mesh

def numVertices (m : Mesh) : Nat := m.vertexData.length

def numIndices (m : Mesh) : Nat := m.indexData.length

/-- Modelled from the spec: `addVertex(pos) -> index` appends one
position and returns its index. -/
def addVertex (m : Mesh) (v : Vec3) : Mesh × Nat :=
  ({ m with vertexData := m.vertexData ++ [v] }, m.vertexData.length)

/-- Modelled from the spec: `setIndex(slot, value)` overwrites one
index slot. -/
def setIndex (m : Mesh) (slot value : Nat) : Mesh :=
  { m with indexData := m.indexData.set slot value }

/-- Modelled from the spec: `allocateIndices(n)` appends `n`
uninitialized slots (the model fills them with `0`; no claim reads an
unwritten slot). -/
def allocateIndices (m : Mesh) (n : Nat) : Mesh :=
  { m with indexData := m.indexData ++ List.replicate n 0 }

/-- Modelled from the spec: `resizeIndices(n)` grows or shrinks the
index array to exactly `n` entries, preserving the prefix. -/
def resizeIndices (m : Mesh) (n : Nat) : Mesh :=
  { m with indexData := m.indexData.take n ++ List.replicate (n - m.indexData.length) 0 }

/-- Modelled from the spec: `popIndices(n)` shrinks the index array by
`n` from the tail. -/
def popIndices (m : Mesh) (n : Nat) : Mesh :=
  { m with indexData := m.indexData.take (m.indexData.length - n) }

/-- Modelled from the spec: `popVertex()` removes the last vertex. -/
def popVertex (m : Mesh) : Mesh :=
  { m with vertexData := m.vertexData.dropLast }

/-- Modelled from the spec: `reset` clears the buffer. -/
def reset (_ : Mesh) : Mesh := {}

end Mesh

/-- Topology-store vertex record (`WingedVertex`): an index into the
render buffer plus an optional incident-edge back-reference (edge id);
`WingedMesh::Impl::addVertex` constructs it as `(index, nullptr)`. -/
structure WingedVertex where
  index : Nat
  edge : Option Nat := none
deriving Repr, DecidableEq

/-- Topology-store edge record (`WingedEdge`).  Only the stable id is
observed by the claims under verification; the endpoint references and
the T-edge flag are kept to reflect the record's shape.  The remaining
adjacency fields play no role in `mesh.cpp` itself. -/
structure WingedEdge where
  eid : Nat
  vertex1 : Option Nat := none
  vertex2 : Option Nat := none
  isTEdge : Bool := false
deriving Repr, DecidableEq

/-- Face record (`WingedFace`): one boundary edge reference, a stable
id, and the "first index number" — the offset of the face's 3 indices
in the render buffer's index array.  `vertexIndices` models the three
vertex indices obtained by walking the face's edge cycle (that walk
lives in `winged/face.cpp`, outside `src/`; modelled from the spec:
each face owns exactly 3 index entries holding vertex indices). -/
structure WingedFace where
  fid : Nat
  edge : Option Nat := none
  firstIndexNumber : Nat
  vertexIndices : Nat × Nat × Nat := (0, 0, 0)
deriving Repr, DecidableEq

/-- Modelled from the spec: `WingedFace::writeIndices` writes the
face's 3 vertex indices into the index buffer starting at the face's
`firstIndexNumber`. -/
def WingedFace.writeIndices (f : WingedFace) (m : Mesh) : Mesh :=
  ((m.setIndex f.firstIndexNumber f.vertexIndices.1).setIndex
      (f.firstIndexNumber + 1) f.vertexIndices.2.1).setIndex
      (f.firstIndexNumber + 2) f.vertexIndices.2.2

/-- Modelled from the spec (§4.4 Spatial Index): the octree is the
authoritative store for faces.  The claims under verification observe
only its face collection, listed here in the octree's fixed
deterministic traversal order (`forEachFace` visits every stored face
exactly once in that order); the root bounding region is kept for
`initRoot`.  Stored triangle geometry feeds only the spatial queries,
which are modelled separately in the intersection section. -/
structure Octree where
  root : Option (Vec3 × Rat) := none
  faces : List WingedFace := []
deriving Repr, DecidableEq

namespace Octree

def numFaces (o : Octree) : Nat := o.faces.length

/-- Modelled from the spec: `insertFace` stores a new face record and
returns a stable reference to it. -/
def insertFace (o : Octree) (f : WingedFace) (_g : Triangle) : Octree × WingedFace :=
  ({ o with faces := o.faces ++ [f] }, f)

/-- Modelled from the spec: `deleteFace` removes a face by identity. -/
def deleteFace (o : Octree) (f : WingedFace) : Octree :=
  { o with faces := o.faces.eraseP (fun x => x.fid == f.fid) }

/-- Modelled from the spec: `face(id)` is a nullable lookup by id. -/
def face (o : Octree) (i : Nat) : Option WingedFace :=
  o.faces.find? (fun f => f.fid == i)

/-- Modelled from the spec: `reset` clears all nodes. -/
def reset (_ : Octree) : Octree := {}

/-- Modelled from the spec: `initRoot(center, width)` establishes the
root bounding region (its emptiness precondition is asserted by the
caller `WingedMesh::Impl::initOctreeRoot`). -/
def initRoot (o : Octree) (center : Vec3) (width : Rat) : Octree :=
  { o with root := some (center, width) }

end Octree

/-- State of `WingedMesh::Impl` (mesh.cpp:15-28): the mesh id, the
render buffer, the vertex and edge lists, the octree and the allocator
free set (`std::set<unsigned int>`, modelled as a `Finset ℕ`). -/
structure WingedMesh where
  mid : Nat := 0
  mesh : Mesh := {}
  vertices : List WingedVertex := []
  edges : List WingedEdge := []
  octree : Octree := {}
  freeFirstIndexNumbers : Finset Nat := ∅
deriving DecidableEq

namespace WingedMesh

/-- mesh.cpp:34-40: linear scan of the vertex list by buffer index,
`nullptr` on a miss. -/
def vertexSLOW (w : WingedMesh) (i : Nat) : Option WingedVertex :=
  w.vertices.find? (fun v => v.index == i)

/-- mesh.cpp:47-53: linear scan of the edge list by id, `nullptr` on a
miss. -/
def edgeSLOW (w : WingedMesh) (i : Nat) : Option WingedEdge :=
  w.edges.find? (fun e => e.eid == i)

/-- mesh.cpp:55: delegate face lookup to the octree. -/
def face (w : WingedMesh) (i : Nat) : Option WingedFace :=
  w.octree.face i

/-- mesh.cpp:61-65: append a position to the render buffer and create
a vertex record for the new buffer index with no incident edge. -/
def addVertex (w : WingedMesh) (v : Vec3) : WingedMesh × WingedVertex :=
  let p := w.mesh.addVertex v
  let newV : WingedVertex := { index := p.2, edge := none }
  ({ w with mesh := p.1, vertices := w.vertices ++ [newV] }, newV)

/-- mesh.cpp:67-77: append an edge copying every adjacency field from
the prototype (fields not modelled are noted on `WingedEdge`). -/
def addEdge (w : WingedMesh) (e : WingedEdge) : WingedMesh × WingedEdge :=
  ({ w with edges := w.edges ++ [e] }, e)

/-- mesh.cpp:220-222: `freeFirstIndexNumbers.size () > 0`. -/
def hasFreeFirstIndexNumber (w : WingedMesh) : Bool :=
  decide (0 < w.freeFirstIndexNumbers.card)

/-- mesh.cpp:224-229: remove and return the smallest free offset
(`*begin()` of a `std::set` ordered ascending).  The source asserts
`hasFreeFirstIndexNumber`; under that guard `Finset.min` is some
element and the `untop' 0` default is never used. -/
def nextFreeFirstIndexNumber (w : WingedMesh) : WingedMesh × Nat :=
  let n := w.freeFirstIndexNumbers.min.untop' 0
  ({ w with freeFirstIndexNumbers := w.freeFirstIndexNumbers.erase n }, n)

/-- mesh.cpp:79-91: take a free first-index number if one exists, else
append 3 index slots at offset `numIndices()`; then insert into the
octree a face copying the prototype's edge and id with the obtained
first index number. -/
def addFace (w : WingedMesh) (f : WingedFace) (g : Triangle) : WingedMesh × WingedFace :=
  let p :=
    if w.hasFreeFirstIndexNumber then
      w.nextFreeFirstIndexNumber
    else
      ({ w with mesh := w.mesh.allocateIndices 3 }, w.mesh.numIndices)
  let q := p.1.octree.insertFace
    { fid := f.fid, edge := f.edge, firstIndexNumber := p.2
      vertexIndices := f.vertexIndices } g
  ({ p.1 with octree := q.1 }, q.2)

/-- mesh.cpp:105: erase the edge by its stored handle. -/
def deleteEdge (w : WingedMesh) (e : WingedEdge) : WingedMesh :=
  { w with edges := w.edges.eraseP (fun x => x.eid == e.eid) }

/-- mesh.cpp:106-114: if the face occupies the trailing index triple,
shrink the buffer by 3, else record its first index number as free;
then remove the face from the octree.  The C++ guard
`face.firstIndexNumber () == this->mesh.numIndices () - 3` subtracts
over `unsigned int`: for `numIndices < 3` it wraps to at least
`2^32 - 3` and compares unequal for every reachable first index
number, which `firstIndexNumber + 3 = numIndices` reproduces in ℕ. -/
def deleteFace (w : WingedMesh) (f : WingedFace) : WingedMesh :=
  let w' :=
    if f.firstIndexNumber + 3 = w.mesh.numIndices then
      { w with mesh := w.mesh.popIndices 3 }
    else
      { w with freeFirstIndexNumbers := insert f.firstIndexNumber w.freeFirstIndexNumbers }
  { w' with octree := w'.octree.deleteFace f }

/-- mesh.cpp:116-119: pop the last buffer position and the
most-recently-added vertex record. -/
def popVertex (w : WingedMesh) : WingedMesh :=
  { w with mesh := w.mesh.popVertex, vertices := w.vertices.dropLast }

/-- mesh.cpp:125-128: returns `vertices.size ()`. -/
def numVertices (w : WingedMesh) : Nat := w.vertices.length

/-- mesh.cpp:126: the assertion checked by `numVertices` before it
returns: the topology vertex count equals the render-buffer position
count. -/
def numVerticesAssertOk (w : WingedMesh) : Bool :=
  w.mesh.numVertices == w.vertices.length

/-- mesh.cpp:130-132. -/
def numEdges (w : WingedMesh) : Nat := w.edges.length

/-- mesh.cpp:134-136. -/
def numFaces (w : WingedMesh) : Nat := w.octree.numFaces

/-- mesh.cpp:138-140. -/
def numIndices (w : WingedMesh) : Nat := w.mesh.numIndices

/-- mesh.cpp:142-146: empty iff the vertex, face and index counts are
all zero; the edge count is not consulted. -/
def isEmpty (w : WingedMesh) : Bool :=
  w.numVertices == 0 && w.numFaces == 0 && w.numIndices == 0

end WingedMesh

/-- The repack pass of `writeIndices` (mesh.cpp:150-156): visit the
octree's faces in traversal order keeping a running offset `fin`
(starting at 0, advancing by 3); each face receives `fin` as its new
first index number and writes its 3 vertex indices there
(`face.writeIndices (*this->self, &fin)`).  Returns the rewritten
faces and the rewritten buffer. -/
def repackFaces : List WingedFace → Nat → Mesh → List WingedFace × Mesh
  | [], _, m => ([], m)
  | f :: fs, fin, m =>
    let f' := { f with firstIndexNumber := fin }
    let p := repackFaces fs (fin + 3) (f'.writeIndices m)
    (f' :: p.1, p.2)

namespace WingedMesh

/-- mesh.cpp:148-164: if any free first-index number exists, resize
the index array to `numFaces() * 3`, repack every face at consecutive
offsets 0, 3, 6, … and clear the free set; otherwise each face
rewrites its 3 indices in place at its existing offset. -/
def writeIndices (w : WingedMesh) : WingedMesh :=
  if 0 < w.freeFirstIndexNumbers.card then
    let p := repackFaces w.octree.faces 0 (w.mesh.resizeIndices (w.numFaces * 3))
    { w with mesh := p.2, octree := { w.octree with faces := p.1 }
             freeFirstIndexNumbers := ∅ }
  else
    { w with mesh := w.octree.faces.foldl (fun m f => f.writeIndices m) w.mesh }

/-- mesh.cpp:172-175: `write()` is `writeIndices()` then
`writeNormals()`.  `writeNormals` (mesh.cpp:166-170) writes only the
normal array, which is not part of the model (see `Mesh`), so `write`
coincides with `writeIndices` on the modelled state. -/
def write (w : WingedMesh) : WingedMesh :=
  w.writeIndices

/-- mesh.cpp:177-180: assert that no free first-index number remains,
then upload the buffer.  The assertion is modelled as the `none`
result; the upload itself is a one-way handoff with no effect on the
modelled state. -/
def bufferData (w : WingedMesh) : Option WingedMesh :=
  if w.freeFirstIndexNumbers.card = 0 then some w else none

/-- mesh.cpp:182-185: `write()` then `bufferData()`. -/
def writeAndBuffer (w : WingedMesh) : Option WingedMesh :=
  w.write.bufferData

/-- mesh.cpp:194-199: reset the render buffer, clear the vertex and
edge lists and reset the octree.  (`freeFirstIndexNumbers` is not
cleared by the source.) -/
def reset (w : WingedMesh) : WingedMesh :=
  { w with mesh := w.mesh.reset, vertices := [], edges := []
           octree := w.octree.reset }

/-- mesh.cpp:201-204: assert `isEmpty()` (modelled as the `none`
result), then initialize the octree root region. -/
def initOctreeRoot (w : WingedMesh) (center : Vec3) (width : Rat) : Option WingedMesh :=
  if w.isEmpty then some { w with octree := w.octree.initRoot center width }
  else none

end WingedMesh

/-! ## Ray-intersection model (`Scene::Impl::intersects`)

`WingedMesh::Impl::intersects` (mesh.cpp:208-210) delegates to
`Octree::intersects`, whose code is outside `src/`.  Modelled from the
spec: the octree performs exact ray–triangle tests against every
stored face's geometry, records the closest hit into the output
intersection and returns whether any hit occurred; a no-hit result
leaves the output parameter untouched.  The exact ray–triangle test
itself is abstracted as a parameter `hitTest` returning the hit
parameter `t` (or `none` on a miss); ray and triangle geometry stay
opaque type parameters, so every statement below holds for any exact
test. -/

/-- Selection mode of the scene layer (`selection-mode.hpp`):
`Scene::Impl::intersects` queries winged meshes only in `Freeform`
mode. -/
inductive SelectionMode where
  | Freeform
  | SphereNode
deriving Repr, DecidableEq

/-- Accumulator object `WingedFaceIntersection`: optionally holds the
hit parameter together with the hit mesh's and face's ids;
`isIntersection()` tells whether a hit has been recorded. -/
structure WingedFaceIntersection where
  hit : Option (Rat × Nat × Nat) := none
deriving Repr, DecidableEq

def WingedFaceIntersection.isIntersection (i : WingedFaceIntersection) : Bool :=
  i.hit.isSome

/-- A winged mesh as seen by the intersection model: its id and the
stored faces' ids and triangle geometry. -/
structure IntersectableMesh (Tri : Type) where
  mid : Nat
  faces : List (Nat × Tri)

/-- One step of the closest-hit scan: test one face against the ray
and keep the smaller hit parameter (ties keep the earlier face). -/
def bestHitStep {Ray Tri : Type} (hitTest : Ray → Tri → Option Rat) (ray : Ray)
    (acc : Option (Rat × Nat)) (f : Nat × Tri) : Option (Rat × Nat) :=
  match hitTest ray f.2 with
  | none => acc
  | some t =>
    match acc with
    | none => some (t, f.1)
    | some p => if t < p.1 then some (t, f.1) else acc

/-- Modelled from the spec: the closest hit among the mesh's faces —
the face id paired with the smallest hit parameter produced by the
exact ray–triangle test. -/
def bestHit {Ray Tri : Type} (hitTest : Ray → Tri → Option Rat)
    (m : IntersectableMesh Tri) (ray : Ray) : Option (Rat × Nat) :=
  m.faces.foldl (bestHitStep hitTest ray) none

/-- Modelled from the spec: `WingedMesh::intersects (ray, inter)` —
record the mesh's closest hit into the accumulator when it beats the
hit already recorded there; return whether any face of this mesh was
hit; leave the accumulator untouched when no face was hit. -/
def meshIntersects {Ray Tri : Type} (hitTest : Ray → Tri → Option Rat)
    (m : IntersectableMesh Tri) (ray : Ray)
    (inter : WingedFaceIntersection) : Bool × WingedFaceIntersection :=
  match bestHit hitTest m ray with
  | none => (false, inter)
  | some p =>
    match inter.hit with
    | none => (true, ⟨some (p.1, m.mid, p.2)⟩)
    | some q => (true, if p.1 < q.1 then ⟨some (p.1, m.mid, p.2)⟩ else inter)

/-- scene.cpp:78-85: in `Freeform` mode run every winged mesh's
intersection test against the shared accumulator (return values of the
per-mesh calls are discarded); in any other mode query no winged mesh;
finally return `intersection.isIntersection ()`. -/
def sceneIntersects {Ray Tri : Type} (hitTest : Ray → Tri → Option Rat)
    (wingedMeshes : List (IntersectableMesh Tri)) (mode : SelectionMode)
    (ray : Ray) (inter : WingedFaceIntersection) :
    Bool × WingedFaceIntersection :=
  let final :=
    if mode = SelectionMode.Freeform then
      wingedMeshes.foldl (fun acc m => (meshIntersects hitTest m ray acc).2) inter
    else inter
  (final.isIntersection, final)

/-! ## Overwrite batches

`writeIndices` (both paths) is a sequence of `List.set` overwrites of
the index array.  The helpers below characterize such a batch
pointwise, which yields the determinism of a second `write`. -/

/-- Apply a batch of (slot, value) overwrites left to right. -/
def applySets (ps : List (Nat × Nat)) (l : List Nat) : List Nat :=
  ps.foldl (fun l p => l.set p.1 p.2) l

/-- The last value a batch writes to slot `k`, if any. -/
def lastWrite : List (Nat × Nat) → Nat → Option Nat
  | [], _ => none
  | p :: ps, k =>
    match lastWrite ps k with
    | some v => some v
    | none => if p.1 = k then some p.2 else none

theorem applySets_cons (p : Nat × Nat) (ps : List (Nat × Nat)) (l : List Nat) :
    applySets (p :: ps) l = applySets ps (l.set p.1 p.2) := rfl

theorem applySets_append (ps qs : List (Nat × Nat)) (l : List Nat) :
    applySets (ps ++ qs) l = applySets qs (applySets ps l) :=
  List.foldl_append ..

theorem length_applySets (ps : List (Nat × Nat)) (l : List Nat) :
    (applySets ps l).length = l.length := by
  induction ps generalizing l with
  | nil => rfl
  | cons p ps ih => rw [applySets_cons, ih, List.length_set]

theorem getElem?_applySets (ps : List (Nat × Nat)) (l : List Nat) (k : Nat) :
    (applySets ps l)[k]? =
      match lastWrite ps k with
      | some v => if k < l.length then some v else none
      | none => l[k]? := by
  induction ps generalizing l with
  | nil => rfl
  | cons p ps ih =>
    rw [applySets_cons, ih]
    rcases h : lastWrite ps k with _ | v
    · simp only [lastWrite, h, List.length_set, List.getElem?_set]
      by_cases hpk : p.1 = k
      · simp [hpk]
      · simp [hpk]
    · simp [lastWrite, h, List.length_set]

theorem applySets_applySets (ps : List (Nat × Nat)) (l : List Nat) :
    applySets ps (applySets ps l) = applySets ps l := by
  apply List.ext_getElem?
  intro k
  rw [getElem?_applySets, getElem?_applySets, length_applySets]
  rcases h : lastWrite ps k with _ | v <;> rfl

/-- The three overwrites `WingedFace.writeIndices` performs. -/
def faceWrites (f : WingedFace) : List (Nat × Nat) :=
  [(f.firstIndexNumber, f.vertexIndices.1),
   (f.firstIndexNumber + 1, f.vertexIndices.2.1),
   (f.firstIndexNumber + 2, f.vertexIndices.2.2)]

/-- The overwrites a list of faces performs, in visiting order. -/
def facesWrites (fs : List WingedFace) : List (Nat × Nat) :=
  fs.flatMap faceWrites

theorem writeIndices_indexData (f : WingedFace) (m : Mesh) :
    (f.writeIndices m).indexData = applySets (faceWrites f) m.indexData := rfl

theorem writeIndices_vertexData (f : WingedFace) (m : Mesh) :
    (f.writeIndices m).vertexData = m.vertexData := rfl

theorem foldl_writeIndices_indexData (fs : List WingedFace) (m : Mesh) :
    (fs.foldl (fun m f => f.writeIndices m) m).indexData
      = applySets (facesWrites fs) m.indexData := by
  induction fs generalizing m with
  | nil => rfl
  | cons f fs ih =>
    simp only [List.foldl_cons, ih, facesWrites, List.flatMap_cons, applySets_append,
      writeIndices_indexData]

theorem repackFaces_mesh_indexData (fs : List WingedFace) (fin : Nat) (m : Mesh) :
    (repackFaces fs fin m).2.indexData
      = applySets (facesWrites (repackFaces fs fin m).1) m.indexData := by
  induction fs generalizing fin m with
  | nil => rfl
  | cons f fs ih =>
    simp only [repackFaces, ih, facesWrites, List.flatMap_cons, applySets_append,
      writeIndices_indexData]

theorem repackFaces_map_fin (fs : List WingedFace) (fin : Nat) (m : Mesh) :
    (repackFaces fs fin m).1.map WingedFace.firstIndexNumber
      = List.range' fin fs.length 3 := by
  induction fs generalizing fin m with
  | nil => rfl
  | cons f fs ih =>
    show WingedFace.firstIndexNumber _ :: _ = _
    rw [ih]
    rfl

theorem repackFaces_map_fid (fs : List WingedFace) (fin : Nat) (m : Mesh) :
    (repackFaces fs fin m).1.map WingedFace.fid = fs.map WingedFace.fid := by
  induction fs generalizing fin m with
  | nil => rfl
  | cons f fs ih =>
    show WingedFace.fid _ :: _ = _
    rw [ih]
    rfl

theorem repackFaces_mesh_vertexData (fs : List WingedFace) (fin : Nat) (m : Mesh) :
    (repackFaces fs fin m).2.vertexData = m.vertexData := by
  induction fs generalizing fin m with
  | nil => rfl
  | cons f fs ih =>
    show (repackFaces fs (fin + 3) _).2.vertexData = _
    rw [ih, writeIndices_vertexData]

/-! ## Bridging lemmas -/

theorem length_repackFaces_indexData (fs : List WingedFace) (fin : Nat) (m : Mesh) :
    (repackFaces fs fin m).2.indexData.length = m.indexData.length := by
  rw [repackFaces_mesh_indexData, length_applySets]

theorem resizeIndices_length (m : Mesh) (n : Nat) :
    (m.resizeIndices n).indexData.length = n := by
  simp only [Mesh.resizeIndices, List.length_append, List.length_take, List.length_replicate]
  omega

theorem untop_min_eq_min' (s : Finset Nat) (h : s.Nonempty) :
    s.min.untop' 0 = s.min' h := by
  rw [← Finset.coe_min' h, WithTop.untop'_coe]

theorem length_eraseP_append_self (fs : List WingedFace) (x : WingedFace)
    (p : WingedFace → Bool) (hx : p x = true) :
    ((fs ++ [x]).eraseP p).length = fs.length := by
  have hmem : x ∈ fs ++ [x] := List.mem_append_right _ (List.mem_singleton_self x)
  have h := List.length_eraseP_add_one hmem hx
  simp only [List.length_append, List.length_cons, List.length_nil] at h
  omega

theorem writeIndices_of_free (w : WingedMesh) (h : 0 < w.freeFirstIndexNumbers.card) :
    w.writeIndices = { w with
      mesh := (repackFaces w.octree.faces 0 (w.mesh.resizeIndices (w.numFaces * 3))).2
      octree := { w.octree with
        faces := (repackFaces w.octree.faces 0 (w.mesh.resizeIndices (w.numFaces * 3))).1 }
      freeFirstIndexNumbers := ∅ } := by
  simp [WingedMesh.writeIndices, h]

theorem writeIndices_of_noFree (w : WingedMesh) (h : w.freeFirstIndexNumbers.card = 0) :
    w.writeIndices = { w with
      mesh := w.octree.faces.foldl (fun m f => f.writeIndices m) w.mesh } := by
  simp [WingedMesh.writeIndices, h]

/-! ## Operation sequences and concrete states

Used by witnesses and counterexamples; the concrete mesh states are
reached by running `addFace`/`deleteFace` sequences from the empty
mesh. -/

/-- A face-level editing step against a `WingedMesh`. -/
inductive FaceOp where
  | add (proto : WingedFace) (g : Triangle)
  | del (f : WingedFace)

def applyFaceOp (w : WingedMesh) : FaceOp → WingedMesh
  | .add p g => (w.addFace p g).1
  | .del f => w.deleteFace f

def runFaceOps (ops : List FaceOp) : WingedMesh :=
  ops.foldl applyFaceOp {}

/-- A vertex-level editing step against a `WingedMesh`. -/
inductive VertexOp where
  | add (v : Vec3)
  | pop

def applyVertexOp (w : WingedMesh) : VertexOp → WingedMesh
  | .add v => (w.addVertex v).1
  | .pop => w.popVertex

def runVertexOps (ops : List VertexOp) : WingedMesh :=
  ops.foldl applyVertexOp {}

def triZero : Triangle := ((0, 0, 0), (0, 0, 0), (0, 0, 0))

def protoA : WingedFace := { fid := 1, firstIndexNumber := 0 }

def protoB : WingedFace := { fid := 2, firstIndexNumber := 0 }

def protoC : WingedFace := { fid := 3, firstIndexNumber := 0 }

/-- The face stored for `protoB` after three `addFace` calls: it
occupies offset 3. -/
def faceB3 : WingedFace := { fid := 2, firstIndexNumber := 3 }

/-- The face stored for `protoC` after three `addFace` calls: it
occupies offset 6. -/
def faceC6 : WingedFace := { fid := 3, firstIndexNumber := 6 }

/-- Add faces A, B, C (occupying offsets 0, 3, 6), delete B (a
non-trailing face, so offset 3 is recorded as free), then delete C
(the trailing face, so the buffer shrinks to 6 entries).  The
resulting state has `freeFirstIndexNumbers = {3}` and
`numIndices = 6`: the recorded offset 3 equals `numIndices - 3`. -/
def opsTrailingFree : List FaceOp :=
  [.add protoA triZero, .add protoB triZero, .add protoC triZero,
   .del faceB3, .del faceC6]

def meshTrailingFree : WingedMesh := runFaceOps opsTrailingFree

/-- Three faces at offsets 0, 3, 6 with an empty free set. -/
def opsThreeFaces : List FaceOp :=
  [.add protoA triZero, .add protoB triZero, .add protoC triZero]

def meshThreeFaces : WingedMesh := runFaceOps opsThreeFaces

/-- `meshThreeFaces` after deleting the non-trailing face B:
`freeFirstIndexNumbers = {3}`, `numIndices = 9`. -/
def meshFreeSlot : WingedMesh := meshThreeFaces.deleteFace faceB3

/-- A state whose only content is one edge. -/
def meshOnlyEdge : WingedMesh := { edges := [{ eid := 7 }] }

/-! ## Intersection lemmas -/

theorem bestHitStep_isSome {Ray Tri : Type} (hitTest : Ray → Tri → Option Rat)
    (ray : Ray) (acc : Option (Rat × Nat)) (f : Nat × Tri) :
    (bestHitStep hitTest ray acc f).isSome
      = (acc.isSome || (hitTest ray f.2).isSome) := by
  rcases h : hitTest ray f.2 with _ | t <;> rcases acc with _ | p <;>
    simp [bestHitStep, h]
  split <;> simp

theorem foldl_bestHitStep_isSome {Ray Tri : Type} (hitTest : Ray → Tri → Option Rat)
    (ray : Ray) (fs : List (Nat × Tri)) (acc : Option (Rat × Nat)) :
    (fs.foldl (bestHitStep hitTest ray) acc).isSome
      = (acc.isSome || fs.any fun f => (hitTest ray f.2).isSome) := by
  induction fs generalizing acc with
  | nil => simp
  | cons f fs ih =>
    rw [List.foldl_cons, ih, bestHitStep_isSome]
    simp [Bool.or_assoc]

theorem foldl_bestHitStep_none {Ray Tri : Type} (hitTest : Ray → Tri → Option Rat)
    (ray : Ray) (fs : List (Nat × Tri))
    (h : ∀ f ∈ fs, hitTest ray f.2 = none) :
    fs.foldl (bestHitStep hitTest ray) none = none := by
  induction fs with
  | nil => rfl
  | cons f fs ih =>
    rw [List.foldl_cons]
    rw [show bestHitStep hitTest ray none f = none by
      simp [bestHitStep, h f (List.mem_cons_self f fs)]]
    exact ih fun x hx => h x (List.mem_cons_of_mem _ hx)

theorem bestHit_eq_none {Ray Tri : Type} (hitTest : Ray → Tri → Option Rat)
    (m : IntersectableMesh Tri) (ray : Ray)
    (h : ∀ f ∈ m.faces, hitTest ray f.2 = none) :
    bestHit hitTest m ray = none :=
  foldl_bestHitStep_none hitTest ray m.faces h

theorem meshIntersects_of_no_hit {Ray Tri : Type} (hitTest : Ray → Tri → Option Rat)
    (m : IntersectableMesh Tri) (ray : Ray) (inter : WingedFaceIntersection)
    (h : ∀ f ∈ m.faces, hitTest ray f.2 = none) :
    meshIntersects hitTest m ray inter = (false, inter) := by
  rw [meshIntersects, bestHit_eq_none hitTest m ray h]

theorem meshIntersects_snd_isSome {Ray Tri : Type} (hitTest : Ray → Tri → Option Rat)
    (m : IntersectableMesh Tri) (ray : Ray) (inter : WingedFaceIntersection) :
    (meshIntersects hitTest m ray inter).2.hit.isSome
      = (inter.hit.isSome || (bestHit hitTest m ray).isSome) := by
  rcases hb : bestHit hitTest m ray with _ | p <;>
    rcases hi : inter.hit with _ | q <;>
      simp [meshIntersects, hb, hi]
  split <;> simp [hi]

theorem sceneFold_isSome {Ray Tri : Type} (hitTest : Ray → Tri → Option Rat)
    (ray : Ray) (ms : List (IntersectableMesh Tri)) (inter : WingedFaceIntersection) :
    (ms.foldl (fun acc m => (meshIntersects hitTest m ray acc).2) inter).hit.isSome
      = (inter.hit.isSome
          || ms.any fun m => m.faces.any fun f => (hitTest ray f.2).isSome) := by
  induction ms generalizing inter with
  | nil => simp
  | cons m ms ih =>
    rw [List.foldl_cons, ih, meshIntersects_snd_isSome]
    rw [bestHit, foldl_bestHitStep_isSome]
    simp [Bool.or_assoc]

theorem sceneFold_untouched {Ray Tri : Type} (hitTest : Ray → Tri → Option Rat)
    (ray : Ray) (ms : List (IntersectableMesh Tri)) (inter : WingedFaceIntersection)
    (h : ∀ m ∈ ms, ∀ f ∈ m.faces, hitTest ray f.2 = none) :
    ms.foldl (fun acc m => (meshIntersects hitTest m ray acc).2) inter = inter := by
  induction ms generalizing inter with
  | nil => rfl
  | cons m ms ih =>
    rw [List.foldl_cons,
      meshIntersects_of_no_hit hitTest m ray inter (h m (List.mem_cons_self m ms))]
    exact ih inter fun x hx => h x (List.mem_cons_of_mem _ hx)

/-! ## Claims -/

/-- Claim C1: with a non-empty free set, `addFace` consumes the
smallest free offset — removing it from the free set — as the new
face's first index number and leaves the render buffer untouched; only
with an empty free set does it append 3 index slots at offset
`numIndices()`.  Consequently, deleting a non-trailing face `k` of a
mesh with `numIndices() = 3 N` (face `k` at offset `3 j`, `j < N - 1`)
and then adding one face leaves `numIndices()` at `3 N`. -/
theorem addFace_slot_reuse_spec (w : WingedMesh) (f k : WingedFace) (g : Triangle) :
    (∀ h : w.freeFirstIndexNumbers.Nonempty,
      (w.addFace f g).2.firstIndexNumber = w.freeFirstIndexNumbers.min' h ∧
      (w.addFace f g).1.freeFirstIndexNumbers
        = w.freeFirstIndexNumbers.erase (w.freeFirstIndexNumbers.min' h) ∧
      (w.addFace f g).1.mesh = w.mesh) ∧
    (w.freeFirstIndexNumbers = ∅ →
      (w.addFace f g).2.firstIndexNumber = w.mesh.numIndices ∧
      (w.addFace f g).1.mesh.numIndices = w.mesh.numIndices + 3) ∧
    (∀ N j, w.mesh.numIndices = 3 * N → k.firstIndexNumber = 3 * j → j < N - 1 →
      ((w.deleteFace k).addFace f g).1.mesh.numIndices = 3 * N) := by
  refine ⟨fun h => ?_, fun h => ?_, fun N j hN hk hj => ?_⟩
  · have hc : 0 < w.freeFirstIndexNumbers.card := Finset.card_pos.mpr h
    simp [WingedMesh.addFace, WingedMesh.hasFreeFirstIndexNumber, hc,
      WingedMesh.nextFreeFirstIndexNumber, Octree.insertFace, untop_min_eq_min' _ h]
  · simp [WingedMesh.addFace, WingedMesh.hasFreeFirstIndexNumber, h,
      Octree.insertFace, Mesh.allocateIndices, Mesh.numIndices]
  · have hne : ¬ (k.firstIndexNumber + 3 = 3 * N) := by omega
    simp [WingedMesh.deleteFace, WingedMesh.addFace, WingedMesh.hasFreeFirstIndexNumber,
      WingedMesh.nextFreeFirstIndexNumber, Octree.insertFace, hN, hne,
      Finset.insert_nonempty]

/-- Claim C1 witness: in `meshFreeSlot` (free set `{3}`) `addFace`
reuses offset 3; in `meshThreeFaces` (`numIndices = 9`) deleting the
non-trailing face at offset 3 and adding one face keeps
`numIndices = 9`. -/
theorem addFace_slot_reuse_spec_witness :
    (meshFreeSlot.addFace protoB triZero).2.firstIndexNumber = 3 ∧
    ((meshThreeFaces.deleteFace faceB3).addFace protoB triZero).1.mesh.numIndices
      = 3 * 3 := by
  constructor
  · have h := (addFace_slot_reuse_spec meshFreeSlot protoB faceB3 triZero).1 (by decide)
    rw [h.1]
    decide
  · exact (addFace_slot_reuse_spec meshThreeFaces protoB faceB3 triZero).2.2 3 1
      (by decide) (by decide) (by decide)

/-- Claim C2 counterexample (to the claimed consequence): after the
`addFace`/`deleteFace` sequence `opsTrailingFree` — add faces at
offsets 0, 3, 6; delete the face at 3 (recording 3 as free); delete
the trailing face at 6 (shrinking the buffer to 6 entries) — the free
set `{3}` does contain `numIndices() - 3 = 3`. -/
theorem free_slot_trailing_counterexample :
    meshTrailingFree.mesh.numIndices - 3 ∈ meshTrailingFree.freeFirstIndexNumbers := by
  decide

/-- Claim C2 (amended): `deleteFace` on the face occupying the
trailing index triple shrinks the buffer by 3 and records no free
slot; on any other face it records that face's first index number and
leaves `numIndices()` unchanged — so an offset never equals
`numIndices() - 3` at the moment it is recorded (a later trailing
shrink can still make an already-recorded offset equal the new
`numIndices() - 3`). -/
theorem deleteFace_slot_spec (w : WingedMesh) (f : WingedFace) :
    (f.firstIndexNumber + 3 = w.mesh.numIndices →
      (w.deleteFace f).mesh.numIndices = w.mesh.numIndices - 3 ∧
      (w.deleteFace f).freeFirstIndexNumbers = w.freeFirstIndexNumbers) ∧
    (f.firstIndexNumber + 3 ≠ w.mesh.numIndices →
      (w.deleteFace f).freeFirstIndexNumbers
        = insert f.firstIndexNumber w.freeFirstIndexNumbers ∧
      (w.deleteFace f).mesh.numIndices = w.mesh.numIndices ∧
      f.firstIndexNumber + 3 ≠ (w.deleteFace f).mesh.numIndices) := by
  constructor
  · intro h
    refine ⟨?_, ?_⟩
    · simp only [WingedMesh.deleteFace, h, if_pos, Mesh.popIndices, Mesh.numIndices,
        List.length_take]
      omega
    · simp [WingedMesh.deleteFace, h]
  · intro h
    refine ⟨?_, ?_, ?_⟩ <;> simp [WingedMesh.deleteFace, h]

/-- Claim C2 witness: deleting the trailing face of `meshThreeFaces`
shrinks 9 to 6 with no free slot recorded; deleting its non-trailing
face at offset 3 records 3. -/
theorem deleteFace_slot_spec_witness :
    (meshThreeFaces.deleteFace faceC6).mesh.numIndices
      = meshThreeFaces.mesh.numIndices - 3 ∧
    (meshThreeFaces.deleteFace faceB3).freeFirstIndexNumbers
      = insert faceB3.firstIndexNumber meshThreeFaces.freeFirstIndexNumbers :=
  ⟨((deleteFace_slot_spec meshThreeFaces faceC6).1 (by decide)).1,
   ((deleteFace_slot_spec meshThreeFaces faceB3).2 (by decide)).1⟩

theorem writeIndices_again_indexData (w1 : WingedMesh) (l : List Nat)
    (hfree : w1.freeFirstIndexNumbers.card = 0)
    (hdata : w1.mesh.indexData = applySets (facesWrites w1.octree.faces) l) :
    w1.writeIndices.mesh.indexData = w1.mesh.indexData := by
  rw [writeIndices_of_noFree w1 hfree]
  show (List.foldl (fun m f => f.writeIndices m) w1.mesh w1.octree.faces).indexData = _
  rw [foldl_writeIndices_indexData, hdata, applySets_applySets]

/-- Claim C3: with a non-empty free set, `writeIndices()` resizes the
index array to exactly `numFaces() * 3`, assigns the faces — in the
spatial index's traversal order — the consecutive offsets 0, 3, 6, …
(`List.range' 0 numFaces 3`), preserving the face sequence, and clears
the free set; with no free slot it rewrites each face's indices in
place without resizing.  Running `write()` a second time with no edits
in between leaves the index buffer contents identical. -/
theorem writeIndices_repack_spec (w : WingedMesh) :
    (0 < w.freeFirstIndexNumbers.card →
      w.writeIndices.mesh.numIndices = w.numFaces * 3 ∧
      w.writeIndices.octree.faces.map WingedFace.firstIndexNumber
        = List.range' 0 w.numFaces 3 ∧
      w.writeIndices.octree.faces.map WingedFace.fid
        = w.octree.faces.map WingedFace.fid ∧
      w.writeIndices.freeFirstIndexNumbers = ∅) ∧
    (w.freeFirstIndexNumbers.card = 0 →
      w.writeIndices.mesh.numIndices = w.mesh.numIndices ∧
      w.writeIndices.octree.faces = w.octree.faces ∧
      w.writeIndices.freeFirstIndexNumbers = w.freeFirstIndexNumbers) ∧
    w.write.write.mesh.indexData = w.write.mesh.indexData := by
  refine ⟨fun h => ?_, fun h => ?_, ?_⟩
  · rw [writeIndices_of_free w h]
    refine ⟨?_, ?_, ?_, rfl⟩
    · show (repackFaces _ _ _).2.indexData.length = _
      rw [length_repackFaces_indexData, resizeIndices_length]
    · show (repackFaces _ _ _).1.map _ = _
      rw [repackFaces_map_fin]
      rfl
    · show (repackFaces _ _ _).1.map _ = _
      rw [repackFaces_map_fid]
  · rw [writeIndices_of_noFree w h]
    refine ⟨?_, rfl, rfl⟩
    show (w.octree.faces.foldl _ w.mesh).indexData.length = _
    rw [foldl_writeIndices_indexData, length_applySets]
    rfl
  · simp only [WingedMesh.write]
    by_cases hc : 0 < w.freeFirstIndexNumbers.card
    · have h1 : w.writeIndices.freeFirstIndexNumbers.card = 0 := by
        rw [writeIndices_of_free w hc]
        exact Finset.card_empty
      have h2 : w.writeIndices.mesh.indexData
          = applySets (facesWrites w.writeIndices.octree.faces)
              ((w.mesh.resizeIndices (w.numFaces * 3)).indexData) := by
        rw [writeIndices_of_free w hc]
        exact repackFaces_mesh_indexData _ _ _
      exact writeIndices_again_indexData _ _ h1 h2
    · have h0 : w.freeFirstIndexNumbers.card = 0 := by omega
      have h1 : w.writeIndices.freeFirstIndexNumbers.card = 0 := by
        rw [writeIndices_of_noFree w h0]
        exact h0
      have h2 : w.writeIndices.mesh.indexData
          = applySets (facesWrites w.writeIndices.octree.faces) w.mesh.indexData := by
        rw [writeIndices_of_noFree w h0]
        exact foldl_writeIndices_indexData _ _
      exact writeIndices_again_indexData _ _ h1 h2

/-- Claim C3 witness: repacking `meshFreeSlot` (2 faces, free set
`{3}`) yields 6 index entries, offsets `[0, 3]` and an empty free
set. -/
theorem writeIndices_repack_spec_witness :
    meshFreeSlot.writeIndices.mesh.numIndices = meshFreeSlot.numFaces * 3 ∧
    meshFreeSlot.writeIndices.octree.faces.map WingedFace.firstIndexNumber
      = List.range' 0 meshFreeSlot.numFaces 3 ∧
    meshFreeSlot.writeIndices.freeFirstIndexNumbers = ∅ := by
  have h := (writeIndices_repack_spec meshFreeSlot).1 (by decide)
  exact ⟨h.1, h.2.1, h.2.2.2⟩

/-- Claim C4: `bufferData()` succeeds exactly when the allocator holds
no free index slot — calling it with a non-empty free set hits the
assertion (modelled as `none`) — and `writeAndBuffer()`, which runs
`write()` first, always reaches `bufferData()` with the precondition
satisfied. -/
theorem bufferData_precondition_spec (w : WingedMesh) :
    (w.freeFirstIndexNumbers = ∅ → w.bufferData = some w) ∧
    (w.freeFirstIndexNumbers ≠ ∅ → w.bufferData = none) ∧
    (w.writeAndBuffer).isSome = true := by
  refine ⟨fun h => by simp [WingedMesh.bufferData, h], fun h => ?_, ?_⟩
  · have hc : ¬ (w.freeFirstIndexNumbers.card = 0) := by
      simpa [Finset.card_eq_zero] using h
    simp [WingedMesh.bufferData, hc]
  · rw [WingedMesh.writeAndBuffer, WingedMesh.write]
    by_cases hc : 0 < w.freeFirstIndexNumbers.card
    · rw [writeIndices_of_free w hc]
      simp [WingedMesh.bufferData]
    · have h0 : w.freeFirstIndexNumbers.card = 0 := by omega
      rw [writeIndices_of_noFree w h0]
      simp [WingedMesh.bufferData, h0]

/-- Claim C4 witness: `bufferData` succeeds on `meshThreeFaces` (empty
free set) and fails on `meshFreeSlot` (free set `{3}`). -/
theorem bufferData_precondition_spec_witness :
    meshThreeFaces.bufferData = some meshThreeFaces ∧
    meshFreeSlot.bufferData = none :=
  ⟨(bufferData_precondition_spec meshThreeFaces).1 (by decide),
   (bufferData_precondition_spec meshFreeSlot).2.1 (by decide)⟩

/-- Claim C5: for every sequence of `addVertex`/`popVertex` operations
from the empty mesh the topology-store vertex count equals the render
buffer's position count (and `numVertices`'s assertion holds); each
`addVertex` appends exactly one buffer position and one vertex record,
each `popVertex` removes exactly one of each. -/
theorem vertex_buffer_parity (ops : List VertexOp) (w : WingedMesh) (v : Vec3) :
    (runVertexOps ops).mesh.numVertices = (runVertexOps ops).numVertices ∧
    WingedMesh.numVerticesAssertOk (runVertexOps ops) = true ∧
    ((w.addVertex v).1.mesh.numVertices = w.mesh.numVertices + 1 ∧
     (w.addVertex v).1.vertices.length = w.vertices.length + 1) ∧
    (w.popVertex.mesh.numVertices = w.mesh.numVertices - 1 ∧
     w.popVertex.vertices.length = w.vertices.length - 1) := by
  have key : ∀ (ops : List VertexOp) (w0 : WingedMesh),
      w0.mesh.numVertices = w0.vertices.length →
      (ops.foldl applyVertexOp w0).mesh.numVertices
        = (ops.foldl applyVertexOp w0).vertices.length := by
    intro ops
    induction ops with
    | nil => intro w0 h0; exact h0
    | cons op ops ih =>
      intro w0 h0
      rw [List.foldl_cons]
      refine ih _ ?_
      simp only [Mesh.numVertices] at h0
      cases op with
      | add v =>
        simp only [applyVertexOp, WingedMesh.addVertex, Mesh.addVertex,
          Mesh.numVertices, List.length_append, List.length_cons, List.length_nil]
        omega
      | pop =>
        simp only [applyVertexOp, WingedMesh.popVertex, Mesh.popVertex,
          Mesh.numVertices, List.length_dropLast]
        omega
  have hrun := key ops {} rfl
  refine ⟨hrun, ?_, ?_, ?_⟩
  · simp [WingedMesh.numVerticesAssertOk, runVertexOps] at hrun ⊢
    exact hrun
  · simp [WingedMesh.addVertex, Mesh.addVertex, Mesh.numVertices]
  · simp [WingedMesh.popVertex, Mesh.popVertex, Mesh.numVertices]

/-- Claim C6 counterexample: from the reachable state
`meshTrailingFree` (free set `{3}`, `numIndices = 6`), `addFace`
reuses offset 3, and the immediate `deleteFace` of the returned face
finds it trailing and shrinks the buffer to 3 instead of re-recording
the slot — `numIndices()` is not restored. -/
theorem addFace_deleteFace_roundtrip_counterexample :
    ((meshTrailingFree.addFace protoB triZero).1.deleteFace
      (meshTrailingFree.addFace protoB triZero).2).mesh.numIndices
      ≠ meshTrailingFree.mesh.numIndices := by
  decide

/-- Claim C6 (amended): whenever the allocator's free set holds no
offset `m` with `m + 3 = numIndices()`, `addFace` followed immediately
by `deleteFace` on the returned face restores `numFaces()`,
`numIndices()` and the free set to their pre-add values. -/
theorem addFace_deleteFace_roundtrip (w : WingedMesh) (f : WingedFace) (g : Triangle)
    (hfree : ∀ m ∈ w.freeFirstIndexNumbers, m + 3 ≠ w.mesh.numIndices) :
    ((w.addFace f g).1.deleteFace (w.addFace f g).2).numFaces = w.numFaces ∧
    ((w.addFace f g).1.deleteFace (w.addFace f g).2).mesh.numIndices
      = w.mesh.numIndices ∧
    ((w.addFace f g).1.deleteFace (w.addFace f g).2).freeFirstIndexNumbers
      = w.freeFirstIndexNumbers := by
  by_cases h : w.freeFirstIndexNumbers.Nonempty
  · have hc : 0 < w.freeFirstIndexNumbers.card := Finset.card_pos.mpr h
    have hmin := Finset.min'_mem _ h
    have hne : ¬ (w.freeFirstIndexNumbers.min' h + 3 = w.mesh.indexData.length) :=
      hfree _ hmin
    simp [WingedMesh.addFace, WingedMesh.hasFreeFirstIndexNumber, hc,
      WingedMesh.nextFreeFirstIndexNumber, Octree.insertFace, untop_min_eq_min' _ h,
      WingedMesh.deleteFace, hne, WingedMesh.numFaces, Octree.numFaces,
      Octree.deleteFace, Mesh.numIndices, Finset.insert_erase hmin]
    exact length_eraseP_append_self _ _ _ (by simp)
  · have hemp : w.freeFirstIndexNumbers = ∅ := Finset.not_nonempty_iff_eq_empty.mp h
    simp [WingedMesh.addFace, WingedMesh.hasFreeFirstIndexNumber, hemp,
      Octree.insertFace, Mesh.allocateIndices, WingedMesh.deleteFace, Mesh.numIndices,
      Mesh.popIndices, WingedMesh.numFaces, Octree.numFaces, Octree.deleteFace,
      Nat.add_sub_cancel, List.take_left]
    exact length_eraseP_append_self _ _ _ (by simp)

/-- Claim C6 witness: the round trip at `meshFreeSlot` (free set
`{3}`, `numIndices = 9`, one face) restores `numIndices` and the free
set. -/
theorem addFace_deleteFace_roundtrip_witness :
    ((meshFreeSlot.addFace protoB triZero).1.deleteFace
      (meshFreeSlot.addFace protoB triZero).2).mesh.numIndices
      = meshFreeSlot.mesh.numIndices ∧
    ((meshFreeSlot.addFace protoB triZero).1.deleteFace
      (meshFreeSlot.addFace protoB triZero).2).freeFirstIndexNumbers
      = meshFreeSlot.freeFirstIndexNumbers := by
  have h := addFace_deleteFace_roundtrip meshFreeSlot protoB triZero (by decide)
  exact ⟨h.2.1, h.2.2⟩

/-- Claim C7: `Scene::intersects` never fails and is pure — with a
fresh output parameter it returns true exactly when some face of some
queried winged mesh is hit by the ray; when no face is hit it returns
false and leaves the output intersection untouched, and in a
non-`Freeform` selection mode no winged mesh is queried at all.  The
statement holds for every exact ray–triangle test `hitTest`. -/
theorem intersects_spec {Ray Tri : Type} (hitTest : Ray → Tri → Option Rat)
    (ms : List (IntersectableMesh Tri)) (mode : SelectionMode) (ray : Ray)
    (inter : WingedFaceIntersection) :
    ((sceneIntersects hitTest ms SelectionMode.Freeform ray ⟨none⟩).1 = true ↔
      ∃ m ∈ ms, ∃ f ∈ m.faces, (hitTest ray f.2).isSome = true) ∧
    ((∀ m ∈ ms, ∀ f ∈ m.faces, hitTest ray f.2 = none) →
      sceneIntersects hitTest ms SelectionMode.Freeform ray inter
        = (inter.isIntersection, inter)) ∧
    ((∀ m ∈ ms, ∀ f ∈ m.faces, hitTest ray f.2 = none) →
      sceneIntersects hitTest ms SelectionMode.Freeform ray ⟨none⟩
        = (false, ⟨none⟩)) ∧
    (mode ≠ SelectionMode.Freeform →
      sceneIntersects hitTest ms mode ray inter = (inter.isIntersection, inter)) := by
  refine ⟨?_, fun h => ?_, fun h => ?_, fun h => ?_⟩
  · rw [show (sceneIntersects hitTest ms SelectionMode.Freeform ray ⟨none⟩).1
        = (ms.foldl (fun acc m => (meshIntersects hitTest m ray acc).2)
            ⟨none⟩).hit.isSome from rfl]
    rw [sceneFold_isSome]
    simp [List.any_eq_true]
  · rw [sceneIntersects, if_pos rfl, sceneFold_untouched hitTest ray ms inter h]
  · rw [sceneIntersects, if_pos rfl, sceneFold_untouched hitTest ray ms _ h]
    rfl
  · rw [sceneIntersects, if_neg h]

/-- An always-missing ray–triangle test over trivial geometry, used by
the C7 witness. -/
def noHitTest : Unit → Unit → Option Rat := fun _ _ => none

/-- A one-face mesh over trivial geometry, used by the C7 witness. -/
def unitFaceMesh : IntersectableMesh Unit := { mid := 0, faces := [(5, ())] }

/-- Claim C7 witness: a miss on a one-face scene returns false with
the output untouched, and a non-`Freeform` query touches nothing. -/
theorem intersects_spec_witness :
    sceneIntersects noHitTest [unitFaceMesh] SelectionMode.Freeform () ⟨none⟩
      = (false, ⟨none⟩) ∧
    sceneIntersects noHitTest [unitFaceMesh] SelectionMode.SphereNode ()
      ⟨some (1, 2, 3)⟩ = (true, ⟨some (1, 2, 3)⟩) := by
  constructor
  · exact (intersects_spec noHitTest [unitFaceMesh] SelectionMode.SphereNode ()
      ⟨none⟩).2.2.1 (fun m hm f hf => rfl)
  · exact (intersects_spec noHitTest [unitFaceMesh] SelectionMode.SphereNode ()
      ⟨some (1, 2, 3)⟩).2.2.2 (by decide)

/-- Claim C8: after `reset()`, `isEmpty()` is true and the vertex,
edge, face and index counts are all 0, for every prior state. -/
theorem reset_empty_spec (w : WingedMesh) :
    w.reset.isEmpty = true ∧ w.reset.numVertices = 0 ∧ w.reset.numEdges = 0 ∧
    w.reset.numFaces = 0 ∧ w.reset.numIndices = 0 :=
  ⟨rfl, rfl, rfl, rfl, rfl⟩

/-- Claim C9: the lookups that may legitimately miss — `vertexSLOW`,
`edgeSLOW` (both linear scans) and `face(id)` — return `none` exactly
when no stored element has the given identity, and whenever they
return an element it is a stored element with that identity; none of
them fails on a miss. -/
theorem lookup_miss_spec (w : WingedMesh) (i j k : Nat) :
    (w.vertexSLOW i = none ↔ ∀ v ∈ w.vertices, v.index ≠ i) ∧
    (∀ v, w.vertexSLOW i = some v → v ∈ w.vertices ∧ v.index = i) ∧
    (w.edgeSLOW j = none ↔ ∀ e ∈ w.edges, e.eid ≠ j) ∧
    (∀ e, w.edgeSLOW j = some e → e ∈ w.edges ∧ e.eid = j) ∧
    (w.face k = none ↔ ∀ f ∈ w.octree.faces, f.fid ≠ k) ∧
    (∀ f, w.face k = some f → f ∈ w.octree.faces ∧ f.fid = k) := by
  refine ⟨?_, fun v hv => ⟨List.mem_of_find?_eq_some hv, ?_⟩,
    ?_, fun e he => ⟨List.mem_of_find?_eq_some he, ?_⟩,
    ?_, fun f hf => ⟨List.mem_of_find?_eq_some hf, ?_⟩⟩
  · simp [WingedMesh.vertexSLOW, List.find?_eq_none]
  · simpa using List.find?_some hv
  · simp [WingedMesh.edgeSLOW, List.find?_eq_none]
  · simpa using List.find?_some he
  · simp [WingedMesh.face, Octree.face, List.find?_eq_none]
  · simpa using List.find?_some hf

/-- Claim C9 witness: on `meshOnlyEdge` a vertex lookup and a face
lookup miss with `none`, while the edge lookup finds edge 7. -/
theorem lookup_miss_spec_witness :
    meshOnlyEdge.vertexSLOW 5 = none ∧
    meshOnlyEdge.edgeSLOW 7 = some { eid := 7 } ∧
    meshOnlyEdge.face 1 = none := by
  have h := lookup_miss_spec meshOnlyEdge 5 7 1
  exact ⟨h.1.mpr (by decide), by decide, h.2.2.2.2.1.mpr (by decide)⟩

/-- Claim C10: `isEmpty()` consults only the vertex, face and index
counts — a state with a non-empty edge list but no vertices, faces or
indices is reported empty, and `initOctreeRoot`'s emptiness assertion
passes there even though edges remain stored. -/
theorem isEmpty_ignores_edges (w : WingedMesh) (hv : w.vertices = [])
    (hf : w.octree.faces = []) (hi : w.mesh.indexData = []) (he : w.edges ≠ []) :
    w.isEmpty = true ∧ w.numEdges ≠ 0 ∧
    ∀ c width, (w.initOctreeRoot c width).isSome = true := by
  have hemp : w.isEmpty = true := by
    simp [WingedMesh.isEmpty, WingedMesh.numVertices, WingedMesh.numFaces,
      Octree.numFaces, WingedMesh.numIndices, Mesh.numIndices, hv, hf, hi]
  refine ⟨hemp, ?_, fun c width => by simp [WingedMesh.initOctreeRoot, hemp]⟩
  simpa [WingedMesh.numEdges, List.length_eq_zero] using he

/-- Claim C10 witness: `meshOnlyEdge` stores one edge yet is empty,
and `initOctreeRoot` succeeds on it. -/
theorem isEmpty_ignores_edges_witness :
    meshOnlyEdge.isEmpty = true ∧ meshOnlyEdge.numEdges ≠ 0 ∧
    (meshOnlyEdge.initOctreeRoot (0, 0, 0) 1).isSome = true := by
  have h := isEmpty_ignores_edges meshOnlyEdge rfl rfl rfl (by decide)
  exact ⟨h.1, h.2.1, h.2.2 (0, 0, 0) 1⟩
